import Mathlib

/-!
Verification of `src/setup_cluster.py`, an RKE2 cluster provisioning
orchestrator.  The script is a linear sequence of shell-outs; we embed it
shallowly: the outside world is an `Env` assigning to every shell command
string the `CmdResult` it would produce (plus the one filesystem fact the
script branches on, existence of the ssh key file), and each Python method
becomes a function into a writer monad `M` that records the externally
visible actions (`Event`s) in order and models `sys.exit(n)` as
`Except.error n`.  Printing to the console is not modelled (it never feeds
back into control flow).  Python's substring test `pat in s` and
`str.lower()` are modelled character-list-wise by `strHasSub` and
`lowerString`.
-/

namespace SetupCluster

/-- Model of Python list/str containment at the character level: does the
first list appear as a prefix of the second? -/
def startsWithL : List Char → List Char → Bool
  | [], _ => true
  | _ :: _, [] => false
  | p :: ps, c :: cs => p == c && startsWithL ps cs

/-- Does `pat` occur as a contiguous sublist? -/
def subL (pat : List Char) : List Char → Bool
  | [] => pat.isEmpty
  | c :: rest => startsWithL pat (c :: rest) || subL pat rest

/-- Model of Python's `pat in s` substring operator. -/
def strHasSub (s pat : String) : Bool := subL pat.data s.data

/-- Model of Python's `str.lower()`. -/
def lowerString (s : String) : String := ⟨s.data.map Char.toLower⟩

/-- Result of `subprocess.run`: `(returncode, stdout, stderr)` as the script
consumes it. -/
structure CmdResult where
  returncode : Int
  stdout : String
  stderr : String
deriving Repr, DecidableEq

/-- The ambient world the script runs against: what every shell command
returns, and whether the configured ssh key file exists
(`self.ssh_key_path.exists()`). -/
structure Env where
  run : String → CmdResult
  sshKeyExists : Bool

/-- Externally visible actions the script performs, in order. -/
inductive Event where
  /-- A shell command handed to `subprocess.run` (every ssh invocation is
  such a command string built by `ssh_command`). -/
  | cmd (command : String)
  /-- Creation of the parent directories of `path`
  (`ssh_key_path.parent.mkdir(parents=True, exist_ok=True)`). -/
  | mkdirParents (path : String)
  /-- A working-directory change (`os.chdir`). -/
  | chdir (dir : String)
  /-- Setting `os.environ["KUBECONFIG"]` to `kubeconfig.yaml` under the
  current working directory. -/
  | setEnvKubeconfig
  /-- A fixed blocking wait (`time.sleep`). -/
  | sleep (seconds : Nat)
deriving Repr, DecidableEq

/-- A stage computation: the trace of events it performs, and either its
return value or `Except.error n` for `sys.exit(n)`. -/
structure M (α : Type) where
  trace : List Event
  result : Except Nat α

instance : Monad M where
  pure a := ⟨[], Except.ok a⟩
  bind x f :=
    match x with
    | ⟨tr, Except.error n⟩ => ⟨tr, Except.error n⟩
    | ⟨tr, Except.ok a⟩ => ⟨tr ++ (f a).trace, (f a).result⟩

/-- Record one event. -/
def emit (e : Event) : M Unit := ⟨[e], Except.ok ()⟩

/-- Model of `sys.exit(n)`. -/
def exitWith (n : Nat) : M Unit := ⟨[], Except.error n⟩

/-- `ClusterSetup.run_command`: runs a shell command, returning
`(returncode, stdout if capture_output else "", stderr if capture_output
else "")`.  The `check` flag only affects console printing (the raised
`CalledProcessError` is caught and the same triple returned), so it is not
modelled. -/
def run_command (env : Env) (command : String) (capture_output : Bool) : M CmdResult :=
  let r := env.run command
  ⟨[Event.cmd command],
    Except.ok (if capture_output then r else { returncode := r.returncode, stdout := "", stderr := "" })⟩

/-- Constructor arguments of `ClusterSetup` (the `expanduser` on the key
path is kept abstract: `ssh_key_path` is the expanded path). -/
structure ClusterSetup where
  master_ip : String
  worker_ips : List String
  ssh_user : String
  ssh_key_path : String

/-- `self.all_nodes = [master_ip] + worker_ips`. -/
def ClusterSetup.all_nodes (c : ClusterSetup) : List String :=
  [c.master_ip] ++ c.worker_ips

/-- The command string `ClusterSetup.ssh_command` builds. -/
def sshCmdString (c : ClusterSetup) (host command : String) : String :=
  "ssh -o StrictHostKeyChecking=no -i " ++ c.ssh_key_path ++ " " ++ c.ssh_user
    ++ "@" ++ host ++ " '" ++ command ++ "'"

/-- `ClusterSetup.ssh_command`: runs the built ssh command with
`capture_output=True`. -/
def ssh_command (env : Env) (c : ClusterSetup) (host command : String) : M CmdResult :=
  run_command env (sshCmdString c host command) true

/-- `ClusterSetup.check_prerequisites`: probes `terraform version` (failure
makes `all_ok` false), probes `kubectl version --client` (result only
printed), and checks the key file's existence (absence makes `all_ok`
false). -/
def check_prerequisites (env : Env) : M Bool := do
  let rt ← run_command env "terraform version" true
  let _rk ← run_command env "kubectl version --client" true
  let all_ok := rt.returncode == 0
  let all_ok := all_ok && env.sshKeyExists
  pure all_ok

/-- `ClusterSetup.generate_ssh_key`: if the key file exists, warn and
return; else create the parent directory, run `ssh-keygen`, and
`sys.exit(1)` if that fails. -/
def generate_ssh_key (env : Env) (c : ClusterSetup) : M Unit := do
  if env.sshKeyExists then
    pure ()
  else do
    emit (Event.mkdirParents c.ssh_key_path)
    let r ← run_command env ("ssh-keygen -t rsa -b 4096 -f " ++ c.ssh_key_path ++ " -N \"\"") false
    if r.returncode == 0 then pure () else exitWith 1

/-- Loop body of `ClusterSetup.copy_ssh_keys`: per-host `ssh-copy-id`,
failures only printed. -/
def copy_loop (env : Env) (c : ClusterSetup) : List String → M Unit
  | [] => pure ()
  | node :: rest => do
    let _r ← run_command env ("ssh-copy-id -i " ++ c.ssh_key_path ++ " " ++ c.ssh_user ++ "@" ++ node) false
    copy_loop env c rest

/-- `ClusterSetup.copy_ssh_keys`. -/
def copy_ssh_keys (env : Env) (c : ClusterSetup) : M Unit :=
  copy_loop env c c.all_nodes

/-- Loop body of `ClusterSetup.test_ssh_connections`: a host passes when
the remote echo exits 0 and its stdout contains "Connection successful";
otherwise `all_ok` is set to `false`. -/
def test_ssh_loop (env : Env) (c : ClusterSetup) : List String → Bool → M Bool
  | [], all_ok => pure all_ok
  | node :: rest, all_ok => do
    let r ← ssh_command env c node "echo 'Connection successful'"
    if r.returncode == 0 && strHasSub r.stdout "Connection successful" then
      test_ssh_loop env c rest all_ok
    else
      test_ssh_loop env c rest false

/-- `ClusterSetup.test_ssh_connections`. -/
def test_ssh_connections (env : Env) (c : ClusterSetup) : M Bool :=
  test_ssh_loop env c c.all_nodes true

/-- Loop body of `ClusterSetup.setup_sudoers`: write the sudoers rule; on
success set its mode and probe sudo; all failures only printed. -/
def sudoers_loop (env : Env) (c : ClusterSetup) : List String → M Unit
  | [] => pure ()
  | node :: rest => do
    let r ← ssh_command env c node
      ("echo \"" ++ c.ssh_user ++ " ALL=(ALL) NOPASSWD:ALL\" | sudo tee /etc/sudoers.d/" ++ c.ssh_user)
    if r.returncode == 0 then do
      let _c ← ssh_command env c node ("sudo chmod 0440 /etc/sudoers.d/" ++ c.ssh_user)
      let _t ← ssh_command env c node "sudo ls /root"
      sudoers_loop env c rest
    else
      sudoers_loop env c rest

/-- `ClusterSetup.setup_sudoers`. -/
def setup_sudoers (env : Env) (c : ClusterSetup) : M Unit :=
  sudoers_loop env c c.all_nodes

/-- Loop body of `ClusterSetup.prepare_nodes`: apt update, package install,
swap off, fstab edit — all failures only printed. -/
def prepare_loop (env : Env) (c : ClusterSetup) : List String → M Unit
  | [] => pure ()
  | node :: rest => do
    let _u ← ssh_command env c node "sudo apt-get update -qq"
    let _i ← ssh_command env c node "sudo apt-get install -y curl jq"
    let _s ← ssh_command env c node "sudo swapoff -a"
    let _f ← ssh_command env c node "sudo sed -i '/ swap / s/^/#/' /etc/fstab"
    prepare_loop env c rest

/-- `ClusterSetup.prepare_nodes`. -/
def prepare_nodes (env : Env) (c : ClusterSetup) : M Unit :=
  prepare_loop env c c.all_nodes

/-- The `master_ports` list of `configure_firewall`. -/
def master_ports : List (String × String) :=
  [("6443/tcp", "Kubernetes API"),
   ("9345/tcp", "RKE2 supervisor API"),
   ("10250/tcp", "Kubelet"),
   ("2379:2380/tcp", "etcd")]

/-- The `worker_ports` list of `configure_firewall`. -/
def worker_ports : List (String × String) :=
  [("10250/tcp", "Kubelet"),
   ("30000:32767/tcp", "NodePort services")]

/-- Inner port loop of `configure_firewall`: `sudo ufw allow` per port. -/
def allow_loop (env : Env) (c : ClusterSetup) (host : String) : List (String × String) → M Unit
  | [] => pure ()
  | (port, _desc) :: rest => do
    let _r ← ssh_command env c host ("sudo ufw allow " ++ port)
    allow_loop env c host rest

/-- Worker loop of `configure_firewall`. -/
def workers_fw_loop (env : Env) (c : ClusterSetup) : List String → M Unit
  | [] => pure ()
  | w :: rest => do
    allow_loop env c w worker_ports
    workers_fw_loop env c rest

/-- `ClusterSetup.configure_firewall`: probe `sudo ufw status` on the
master; if its stdout lowercased contains "inactive", warn and return;
otherwise open `master_ports` on the master and `worker_ports` on each
worker. -/
def configure_firewall (env : Env) (c : ClusterSetup) : M Unit := do
  let r ← ssh_command env c c.master_ip "sudo ufw status"
  if strHasSub (lowerString r.stdout) "inactive" then
    pure ()
  else do
    allow_loop env c c.master_ip master_ports
    workers_fw_loop env c c.worker_ips

/-- `ClusterSetup.terraform_init`: `os.chdir("cluster")`, then
`terraform init`, `sys.exit(1)` on failure. -/
def terraform_init (env : Env) : M Unit := do
  emit (Event.chdir "cluster")
  let r ← run_command env "terraform init" false
  if r.returncode == 0 then pure () else exitWith 1

/-- `ClusterSetup.terraform_validate`. -/
def terraform_validate (env : Env) : M Unit := do
  let r ← run_command env "terraform validate" false
  if r.returncode == 0 then pure () else exitWith 1

/-- `ClusterSetup.terraform_plan`. -/
def terraform_plan (env : Env) : M Unit := do
  let r ← run_command env "terraform plan" false
  if r.returncode == 0 then pure () else exitWith 1

/-- `ClusterSetup.terraform_apply`. -/
def terraform_apply (env : Env) : M Unit := do
  let r ← run_command env "terraform apply -auto-approve" false
  if r.returncode == 0 then pure () else exitWith 1

/-- `ClusterSetup.verify_cluster`: set `KUBECONFIG`, sleep 30 seconds, run
the three kubectl queries; their failures are only printed. -/
def verify_cluster (env : Env) : M Unit := do
  emit Event.setEnvKubeconfig
  emit (Event.sleep 30)
  let _n ← run_command env "kubectl get nodes" true
  let _p ← run_command env "kubectl get pods -A" true
  let _i ← run_command env "kubectl cluster-info" false
  pure ()

/-- `ClusterSetup.terraform_destroy`: `terraform destroy -auto-approve`,
`sys.exit(1)` on failure. -/
def terraform_destroy (env : Env) : M Unit := do
  let r ← run_command env "terraform destroy -auto-approve" false
  if r.returncode == 0 then pure () else exitWith 1

/-- The command-line flags of `main` (the address/user/key arguments are
carried by `ClusterSetup`). -/
structure Args where
  skip_prep : Bool
  skip_firewall : Bool
  destroy : Bool
  verify_only : Bool

/-- The body of `main` past the two short-circuit returns: prerequisites
gate the run (`sys.exit(1)`), then key generation, key distribution, the
connectivity gate (`sys.exit(1)`), sudoers, optionally node preparation
and firewall, the four terraform stages and cluster verification. -/
def fullRun (env : Env) (c : ClusterSetup) (args : Args) : M Unit := do
  let ok ← check_prerequisites env
  if ok then do
    generate_ssh_key env c
    copy_ssh_keys env c
    let conn ← test_ssh_connections env c
    if conn then do
      setup_sudoers env c
      if args.skip_prep then pure () else prepare_nodes env c
      if args.skip_firewall then pure () else configure_firewall env c
      terraform_init env
      terraform_validate env
      terraform_plan env
      terraform_apply env
      verify_cluster env
    else
      exitWith 1
  else
    exitWith 1

/-- `main`: `--destroy` short-circuits to teardown, `--verify-only` to
verification, else the full run. -/
def main (env : Env) (c : ClusterSetup) (args : Args) : M Unit :=
  if args.destroy then terraform_destroy env
  else if args.verify_only then verify_cluster env
  else fullRun env c args

/-- The process exit status a completed computation produces: falling off
the end of `main` exits 0, `sys.exit(n)` exits `n`. -/
def exitCode (m : M Unit) : Nat :=
  match m.result with
  | Except.ok _ => 0
  | Except.error n => n

/-! Spec-side characterizations of the stage outcomes (used only to state
and assemble theorems; each is proved equal to what the embedded code
computes). -/

/-- Success of the local `terraform version` probe. -/
def tfProbeOk (env : Env) : Bool := (env.run "terraform version").returncode == 0

/-- The boolean `check_prerequisites` returns. -/
def prereqBool (env : Env) : Bool := tfProbeOk env && env.sshKeyExists

/-- Per-host success criterion of `test_ssh_connections`: exit status 0 and
the token "Connection successful" in the captured stdout. -/
def connHostOk (env : Env) (c : ClusterSetup) (node : String) : Bool :=
  let r := env.run (sshCmdString c node "echo 'Connection successful'")
  (r.returncode == 0) && strHasSub r.stdout "Connection successful"

/-- Conjunction of `connHostOk` over all nodes. -/
def connAll (env : Env) (c : ClusterSetup) : Bool :=
  c.all_nodes.all (connHostOk env c)

/-- Port-opening commands `configure_firewall` issues to the master. -/
def masterAllowTrace (c : ClusterSetup) : List Event :=
  master_ports.map (fun p => Event.cmd (sshCmdString c c.master_ip ("sudo ufw allow " ++ p.1)))

/-- Port-opening commands `configure_firewall` issues to one worker. -/
def workerAllowTrace (c : ClusterSetup) (w : String) : List Event :=
  worker_ports.map (fun p => Event.cmd (sshCmdString c w ("sudo ufw allow " ++ p.1)))

/-! Reduction lemmas for the monad and the atomic actions. -/

@[simp] theorem bind_ok {α β : Type} (tr : List Event) (a : α) (f : α → M β) :
    ((M.mk tr (Except.ok a) : M α) >>= f) = M.mk (tr ++ (f a).trace) (f a).result := rfl

@[simp] theorem bind_error {α β : Type} (tr : List Event) (n : Nat) (f : α → M β) :
    ((M.mk tr (Except.error n) : M α) >>= f) = M.mk tr (Except.error n) := rfl

@[simp] theorem pure_eq {α : Type} (a : α) : (pure a : M α) = M.mk [] (Except.ok a) := rfl

theorem bind_eq_of_ok {α β : Type} (x : M α) (f : α → M β) (a : α)
    (h : x.result = Except.ok a) :
    (x >>= f) = M.mk (x.trace ++ (f a).trace) (f a).result := by
  obtain ⟨tr, r⟩ := x
  cases r with
  | ok b =>
    obtain rfl : b = a := by simpa using h
    rfl
  | error n => simp at h

theorem bind_eq_of_error {α β : Type} (x : M α) (f : α → M β) (n : Nat)
    (h : x.result = Except.error n) : (x >>= f) = M.mk x.trace (Except.error n) := by
  obtain ⟨tr, r⟩ := x
  cases r with
  | ok b => simp at h
  | error m =>
    obtain rfl : m = n := by simpa using h
    rfl

@[simp] theorem run_command_capture (env : Env) (s : String) :
    run_command env s true = M.mk [Event.cmd s] (Except.ok (env.run s)) := rfl

@[simp] theorem run_command_nocapture (env : Env) (s : String) :
    run_command env s false =
      M.mk [Event.cmd s]
        (Except.ok { returncode := (env.run s).returncode, stdout := "", stderr := "" }) := rfl

@[simp] theorem ssh_command_eq (env : Env) (c : ClusterSetup) (host command : String) :
    ssh_command env c host command =
      M.mk [Event.cmd (sshCmdString c host command)]
        (Except.ok (env.run (sshCmdString c host command))) := rfl

/-! Stage characterizations. -/

theorem check_prerequisites_eq (env : Env) :
    check_prerequisites env =
      M.mk [Event.cmd "terraform version", Event.cmd "kubectl version --client"]
        (Except.ok (prereqBool env)) := rfl

theorem generate_ssh_key_of_exists (env : Env) (c : ClusterSetup)
    (h : env.sshKeyExists = true) : generate_ssh_key env c = M.mk [] (Except.ok ()) := by
  simp [generate_ssh_key, h]

theorem copy_loop_ok (env : Env) (c : ClusterSetup) (ns : List String) :
    (copy_loop env c ns).result = Except.ok () := by
  induction ns with
  | nil => rfl
  | cons node rest ih => simp [copy_loop, ih]

theorem copy_ssh_keys_ok (env : Env) (c : ClusterSetup) :
    (copy_ssh_keys env c).result = Except.ok () :=
  copy_loop_ok env c c.all_nodes

theorem test_ssh_loop_eq (env : Env) (c : ClusterSetup) (ns : List String) (acc : Bool) :
    (test_ssh_loop env c ns acc).result = Except.ok (acc && ns.all (connHostOk env c)) := by
  induction ns generalizing acc with
  | nil => simp [test_ssh_loop]
  | cons node rest ih =>
    simp only [test_ssh_loop, ssh_command_eq, bind_ok, List.all_cons]
    by_cases hx : ((env.run (sshCmdString c node "echo 'Connection successful'")).returncode == 0 &&
        strHasSub (env.run (sshCmdString c node "echo 'Connection successful'")).stdout
          "Connection successful") = true
    · have hc : connHostOk env c node = true := hx
      rw [if_pos hx]
      simp [ih, hc]
    · have hc : connHostOk env c node = false := Bool.eq_false_iff.mpr hx
      rw [if_neg hx]
      simp [ih, hc]

theorem test_ssh_connections_eq (env : Env) (c : ClusterSetup) :
    (test_ssh_connections env c).result = Except.ok (connAll env c) := by
  have h := test_ssh_loop_eq env c c.all_nodes true
  simpa [test_ssh_connections, connAll] using h

theorem sudoers_loop_ok (env : Env) (c : ClusterSetup) (ns : List String) :
    (sudoers_loop env c ns).result = Except.ok () := by
  induction ns with
  | nil => rfl
  | cons node rest ih =>
    simp only [sudoers_loop, ssh_command_eq, bind_ok]
    split <;> simp [ih]

theorem setup_sudoers_ok (env : Env) (c : ClusterSetup) :
    (setup_sudoers env c).result = Except.ok () :=
  sudoers_loop_ok env c c.all_nodes

theorem prepare_loop_ok (env : Env) (c : ClusterSetup) (ns : List String) :
    (prepare_loop env c ns).result = Except.ok () := by
  induction ns with
  | nil => rfl
  | cons node rest ih => simp [prepare_loop, ih]

theorem prepare_nodes_ok (env : Env) (c : ClusterSetup) :
    (prepare_nodes env c).result = Except.ok () :=
  prepare_loop_ok env c c.all_nodes

theorem allow_loop_eq (env : Env) (c : ClusterSetup) (host : String)
    (ps : List (String × String)) :
    allow_loop env c host ps =
      M.mk (ps.map (fun p => Event.cmd (sshCmdString c host ("sudo ufw allow " ++ p.1))))
        (Except.ok ()) := by
  induction ps with
  | nil => rfl
  | cons p rest ih =>
    obtain ⟨port, desc⟩ := p
    simp [allow_loop, ih]

theorem workers_fw_loop_eq (env : Env) (c : ClusterSetup) (ws : List String) :
    workers_fw_loop env c ws =
      M.mk (ws.flatMap (workerAllowTrace c)) (Except.ok ()) := by
  induction ws with
  | nil => rfl
  | cons w rest ih =>
    simp [workers_fw_loop, allow_loop_eq, ih, workerAllowTrace]

theorem configure_firewall_ok (env : Env) (c : ClusterSetup) :
    (configure_firewall env c).result = Except.ok () := by
  simp only [configure_firewall, ssh_command_eq, bind_ok]
  split
  · rfl
  · simp [allow_loop_eq, workers_fw_loop_eq]

theorem terraform_init_eq (env : Env) :
    terraform_init env =
      M.mk [Event.chdir "cluster", Event.cmd "terraform init"]
        (if (env.run "terraform init").returncode == 0 then Except.ok ()
         else Except.error 1) := by
  simp only [terraform_init, emit, bind_ok, run_command_nocapture]
  split <;> simp [exitWith]

theorem terraform_validate_eq (env : Env) :
    terraform_validate env =
      M.mk [Event.cmd "terraform validate"]
        (if (env.run "terraform validate").returncode == 0 then Except.ok ()
         else Except.error 1) := by
  simp only [terraform_validate, bind_ok, run_command_nocapture]
  split <;> simp [exitWith]

theorem terraform_plan_eq (env : Env) :
    terraform_plan env =
      M.mk [Event.cmd "terraform plan"]
        (if (env.run "terraform plan").returncode == 0 then Except.ok ()
         else Except.error 1) := by
  simp only [terraform_plan, bind_ok, run_command_nocapture]
  split <;> simp [exitWith]

theorem terraform_apply_eq (env : Env) :
    terraform_apply env =
      M.mk [Event.cmd "terraform apply -auto-approve"]
        (if (env.run "terraform apply -auto-approve").returncode == 0 then Except.ok ()
         else Except.error 1) := by
  simp only [terraform_apply, bind_ok, run_command_nocapture]
  split <;> simp [exitWith]

theorem terraform_destroy_eq (env : Env) :
    terraform_destroy env =
      M.mk [Event.cmd "terraform destroy -auto-approve"]
        (if (env.run "terraform destroy -auto-approve").returncode == 0 then Except.ok ()
         else Except.error 1) := by
  simp only [terraform_destroy, bind_ok, run_command_nocapture]
  split <;> simp [exitWith]

theorem verify_cluster_eq (env : Env) :
    verify_cluster env =
      M.mk [Event.setEnvKubeconfig, Event.sleep 30, Event.cmd "kubectl get nodes",
        Event.cmd "kubectl get pods -A", Event.cmd "kubectl cluster-info"]
        (Except.ok ()) := rfl

/-! Concrete inputs used by the witnesses. -/

/-- The default command-line configuration of `main`. -/
def defaultConfig : ClusterSetup :=
  { master_ip := "10.211.55.28", worker_ips := ["10.211.55.29", "10.211.55.30"],
    ssh_user := "hkn", ssh_key_path := "~/.ssh/id_rsa" }

/-- An environment in which every shell command yields the same result. -/
def constEnv (r : CmdResult) (key : Bool) : Env := ⟨fun _ => r, key⟩

/-- Every command succeeds and prints the connectivity token. -/
def envAllOk : Env := constEnv ⟨0, "Connection successful", ""⟩ true

/-- Every command fails with empty captured output. -/
def envAllFail : Env := constEnv ⟨1, "", ""⟩ true

/-- Commands exit 1 yet print the connectivity token. -/
def envTokenButFail : Env := constEnv ⟨1, "Connection successful", ""⟩ true

/-- The master's ufw probe reports an inactive firewall. -/
def envUfwInactive : Env := constEnv ⟨0, "Status: inactive", ""⟩ true

/-! The claims. -/

/-- C8: for every leader address and every (possibly empty) ordered worker
list, `all_nodes` is the leader followed by the workers in their given
order, has exactly one more entry than the worker list, and de-duplicates
nothing: the leader's multiplicity is one more than its multiplicity among
the workers, so a worker equal to the leader appears twice. -/
theorem all_nodes_spec (m : String) (ws : List String) (u k : String) :
    (ClusterSetup.mk m ws u k).all_nodes = m :: ws ∧
    (ClusterSetup.mk m ws u k).all_nodes.length = ws.length + 1 ∧
    (ClusterSetup.mk m ws u k).all_nodes.count m = ws.count m + 1 := by
  refine ⟨rfl, by simp [ClusterSetup.all_nodes], ?_⟩
  simp [ClusterSetup.all_nodes]

/-- C3: `check_prerequisites` returns `false` exactly when the terraform
probe fails or the key file is missing, and its result is a function of
those two facts alone — the kubectl probe's outcome does not occur in it,
so a failing kubectl probe by itself never produces `false`. -/
theorem check_prerequisites_spec (env : Env) :
    ((check_prerequisites env).result = Except.ok false ↔
      ¬(env.run "terraform version").returncode = 0 ∨ env.sshKeyExists = false) ∧
    (check_prerequisites env).result =
      Except.ok (((env.run "terraform version").returncode == 0) && env.sshKeyExists) := by
  rw [check_prerequisites_eq]
  constructor
  · constructor
    · intro hfalse
      have hb : prereqBool env = false := by simpa using hfalse
      by_cases htf : (env.run "terraform version").returncode = 0
      · right
        have hprobe : tfProbeOk env = true := by simp [tfProbeOk, htf]
        simpa [prereqBool, hprobe] using hb
      · exact Or.inl htf
    · intro h
      have hb : prereqBool env = false := by
        rcases h with h | h
        · simp [prereqBool, tfProbeOk, Bool.and_eq_false_iff, h]
        · simp [prereqBool, h]
      simpa using hb
  · rfl

/-- C2: `test_ssh_connections` computes the conjunction over `all_nodes`
of the per-host success; it returns `true` only if every host's captured
stdout contains "Connection successful", and a single host without the
token forces the overall result `false`. -/
theorem test_ssh_connections_spec (env : Env) (c : ClusterSetup) :
    (test_ssh_connections env c).result = Except.ok (c.all_nodes.all (connHostOk env c)) ∧
    ((test_ssh_connections env c).result = Except.ok true →
      ∀ node ∈ c.all_nodes,
        strHasSub (env.run (sshCmdString c node "echo 'Connection successful'")).stdout
          "Connection successful" = true) ∧
    (∀ node ∈ c.all_nodes,
      strHasSub (env.run (sshCmdString c node "echo 'Connection successful'")).stdout
        "Connection successful" = false →
      (test_ssh_connections env c).result = Except.ok false) := by
  have heq := test_ssh_connections_eq env c
  refine ⟨heq, ?_, ?_⟩
  · intro htrue node hmem
    rw [heq] at htrue
    have hall : connAll env c = true := by simpa using htrue
    have hnode := List.all_eq_true.mp (by simpa [connAll] using hall) node hmem
    simp only [connHostOk, Bool.and_eq_true] at hnode
    exact hnode.2
  · intro node hmem htok
    rw [heq]
    have hfalse : connHostOk env c node = false := by
      simp [connHostOk, htok]
    cases hc : connAll env c with
    | false => rfl
    | true =>
      exfalso
      have hnode := List.all_eq_true.mp (by simpa [connAll] using hc) node hmem
      rw [hfalse] at hnode
      exact Bool.false_ne_true hnode

/-- C10: a host whose remote echo prints the token but exits with a
non-zero status still fails the per-host check, so the overall
connectivity result is `false`. -/
theorem test_ssh_nonzero_exit (env : Env) (c : ClusterSetup) (node : String)
    (hmem : node ∈ c.all_nodes)
    (htok : strHasSub (env.run (sshCmdString c node "echo 'Connection successful'")).stdout
      "Connection successful" = true)
    (hrc : ¬(env.run (sshCmdString c node "echo 'Connection successful'")).returncode = 0) :
    (test_ssh_connections env c).result = Except.ok false := by
  rw [test_ssh_connections_eq]
  have hbeq : ((env.run (sshCmdString c node "echo 'Connection successful'")).returncode == 0)
      = false := by
    simpa using hrc
  have hfalse : connHostOk env c node = false := by
    simp [connHostOk, hbeq]
  cases hc : connAll env c with
  | false => rfl
  | true =>
    exfalso
    have hnode := List.all_eq_true.mp (by simpa [connAll] using hc) node hmem
    rw [hfalse] at hnode
    exact Bool.false_ne_true hnode

/-- C10 witness: in an environment where every command prints the token
but exits 1, connectivity is reported failed. -/
theorem test_ssh_nonzero_exit_witness :
    (test_ssh_connections envTokenButFail defaultConfig).result = Except.ok false :=
  test_ssh_nonzero_exit envTokenButFail defaultConfig "10.211.55.28" (by decide)
    (by decide) (by decide)

/-- C7: with the key file present, `generate_ssh_key` performs no external
action at all (empty trace: no keygen command, no directory creation,
hence no overwrite) and succeeds; invoking it twice in sequence likewise
performs nothing either time. -/
theorem generate_ssh_key_idem (env : Env) (c : ClusterSetup)
    (h : env.sshKeyExists = true) :
    generate_ssh_key env c = M.mk [] (Except.ok ()) ∧
    (generate_ssh_key env c >>= fun _ => generate_ssh_key env c) = M.mk [] (Except.ok ()) := by
  have h1 := generate_ssh_key_of_exists env c h
  refine ⟨h1, ?_⟩
  rw [h1]
  simp [h1]

/-- C7 witness: concrete run with the key present. -/
theorem generate_ssh_key_idem_witness :
    generate_ssh_key envAllOk defaultConfig = M.mk [] (Except.ok ()) ∧
    (generate_ssh_key envAllOk defaultConfig >>= fun _ => generate_ssh_key envAllOk defaultConfig) =
      M.mk [] (Except.ok ()) :=
  generate_ssh_key_idem envAllOk defaultConfig rfl

/-- C4: when the master's `sudo ufw status` stdout, lowercased, contains
"inactive", `configure_firewall` performs only that one probe command —
its whole trace is the probe, so no port-opening command is issued to the
leader or to any worker — and returns successfully. -/
theorem configure_firewall_inactive_skips (env : Env) (c : ClusterSetup)
    (h : strHasSub (lowerString (env.run (sshCmdString c c.master_ip "sudo ufw status")).stdout)
      "inactive" = true) :
    configure_firewall env c =
      M.mk [Event.cmd (sshCmdString c c.master_ip "sudo ufw status")] (Except.ok ()) := by
  simp only [configure_firewall, ssh_command_eq, bind_ok]
  rw [if_pos h]
  simp

/-- C4 witness: probe output "Status: inactive" yields the probe-only
trace. -/
theorem configure_firewall_inactive_skips_witness :
    configure_firewall envUfwInactive defaultConfig =
      M.mk [Event.cmd (sshCmdString defaultConfig defaultConfig.master_ip "sudo ufw status")]
        (Except.ok ()) :=
  configure_firewall_inactive_skips envUfwInactive defaultConfig (by decide)

/-- C9: when the probe's stdout does not contain "inactive" — in
particular when the remote probe failed and captured nothing — the stage
does not skip: it opens all four master ports on the leader and both
worker ports on every worker. -/
theorem configure_firewall_active_issues (env : Env) (c : ClusterSetup)
    (h : strHasSub (lowerString (env.run (sshCmdString c c.master_ip "sudo ufw status")).stdout)
      "inactive" = false) :
    configure_firewall env c =
      M.mk (Event.cmd (sshCmdString c c.master_ip "sudo ufw status") ::
        (masterAllowTrace c ++ c.worker_ips.flatMap (workerAllowTrace c)))
        (Except.ok ()) ∧
    (∀ p ∈ master_ports,
      Event.cmd (sshCmdString c c.master_ip ("sudo ufw allow " ++ p.1)) ∈
        (configure_firewall env c).trace) ∧
    (∀ w ∈ c.worker_ips, ∀ p ∈ worker_ports,
      Event.cmd (sshCmdString c w ("sudo ufw allow " ++ p.1)) ∈
        (configure_firewall env c).trace) := by
  have heq : configure_firewall env c =
      M.mk (Event.cmd (sshCmdString c c.master_ip "sudo ufw status") ::
        (masterAllowTrace c ++ c.worker_ips.flatMap (workerAllowTrace c)))
        (Except.ok ()) := by
    simp only [configure_firewall, ssh_command_eq, bind_ok]
    rw [if_neg (by simp [h])]
    simp [allow_loop_eq, workers_fw_loop_eq, masterAllowTrace]
  refine ⟨heq, ?_, ?_⟩
  · intro p hp
    rw [heq]
    exact List.mem_cons_of_mem _
      (List.mem_append_left _ (List.mem_map_of_mem _ hp))
  · intro w hw p hp
    rw [heq]
    refine List.mem_cons_of_mem _ (List.mem_append_right _ ?_)
    exact List.mem_flatMap.mpr ⟨w, hw, List.mem_map_of_mem _ hp⟩

/-- C9 witness: with an entirely failing probe (exit 1, empty output) on
the default host set, every port-opening command is issued. -/
theorem configure_firewall_active_issues_witness :
    configure_firewall envAllFail defaultConfig =
      M.mk (Event.cmd (sshCmdString defaultConfig defaultConfig.master_ip "sudo ufw status") ::
        (masterAllowTrace defaultConfig ++
          defaultConfig.worker_ips.flatMap (workerAllowTrace defaultConfig)))
        (Except.ok ()) ∧
    (∀ p ∈ master_ports,
      Event.cmd (sshCmdString defaultConfig defaultConfig.master_ip ("sudo ufw allow " ++ p.1)) ∈
        (configure_firewall envAllFail defaultConfig).trace) ∧
    (∀ w ∈ defaultConfig.worker_ips, ∀ p ∈ worker_ports,
      Event.cmd (sshCmdString defaultConfig w ("sudo ufw allow " ++ p.1)) ∈
        (configure_firewall envAllFail defaultConfig).trace) :=
  configure_firewall_active_issues envAllFail defaultConfig (by decide)

/-- C5: with `--destroy`, `main` performs exactly the one teardown command
and nothing else; it exits 0 when that command succeeds and exits 1 when
it fails, with no other stage executed. -/
theorem main_destroy_only (env : Env) (c : ClusterSetup) (args : Args)
    (h : args.destroy = true) :
    main env c args =
      M.mk [Event.cmd "terraform destroy -auto-approve"]
        (if (env.run "terraform destroy -auto-approve").returncode == 0 then Except.ok ()
         else Except.error 1) ∧
    (exitCode (main env c args) = 0 ↔
      (env.run "terraform destroy -auto-approve").returncode = 0) ∧
    (¬(env.run "terraform destroy -auto-approve").returncode = 0 →
      exitCode (main env c args) = 1) := by
  have hm : main env c args = terraform_destroy env := by
    simp [main, h]
  rw [hm, terraform_destroy_eq]
  refine ⟨rfl, ?_, ?_⟩
  · by_cases hc : (env.run "terraform destroy -auto-approve").returncode = 0
    · simp [exitCode, hc]
    · simp [exitCode, hc]
  · intro hc
    simp [exitCode, hc]

/-- C5 witness: a failing teardown yields exactly the destroy command and
exit status 1. -/
theorem main_destroy_only_witness :
    main envAllFail defaultConfig (Args.mk false false true false) =
      M.mk [Event.cmd "terraform destroy -auto-approve"]
        (if (envAllFail.run "terraform destroy -auto-approve").returncode == 0 then Except.ok ()
         else Except.error 1) ∧
    (exitCode (main envAllFail defaultConfig (Args.mk false false true false)) = 0 ↔
      (envAllFail.run "terraform destroy -auto-approve").returncode = 0) ∧
    (¬(envAllFail.run "terraform destroy -auto-approve").returncode = 0 →
      exitCode (main envAllFail defaultConfig (Args.mk false false true false)) = 1) :=
  main_destroy_only envAllFail defaultConfig (Args.mk false false true false) rfl

/-- C6: with `--verify-only` set and `--destroy` off, `main` performs
exactly the verification stage — set `KUBECONFIG`, sleep 30 seconds, run
the three kubectl queries — and exits 0 whatever those queries return. -/
theorem main_verify_only (env : Env) (c : ClusterSetup) (args : Args)
    (hd : args.destroy = false) (hv : args.verify_only = true) :
    main env c args =
      M.mk [Event.setEnvKubeconfig, Event.sleep 30, Event.cmd "kubectl get nodes",
        Event.cmd "kubectl get pods -A", Event.cmd "kubectl cluster-info"]
        (Except.ok ()) ∧
    exitCode (main env c args) = 0 := by
  have hm : main env c args = verify_cluster env := by
    simp [main, hd, hv]
  rw [hm, verify_cluster_eq]
  exact ⟨rfl, rfl⟩

/-- Overall success condition of a default (all flags off) run: the
prerequisite check, the connectivity check and the four terraform
invocations all succeed. -/
def defaultRunOk (env : Env) (c : ClusterSetup) : Bool :=
  prereqBool env &&
    (connAll env c &&
      (((env.run "terraform init").returncode == 0) &&
       (((env.run "terraform validate").returncode == 0) &&
        (((env.run "terraform plan").returncode == 0) &&
         ((env.run "terraform apply -auto-approve").returncode == 0)))))

theorem fullRun_default_result (env : Env) (c : ClusterSetup) :
    (fullRun env c (Args.mk false false false false)).result =
      (if defaultRunOk env c = true then Except.ok () else Except.error 1) := by
  by_cases hp : prereqBool env = true
  · have hkey : env.sshKeyExists = true := by
      have h := hp
      simp only [prereqBool, Bool.and_eq_true] at h
      exact h.2
    by_cases hc : connAll env c = true
    · by_cases hi : (env.run "terraform init").returncode = 0
      · by_cases hv : (env.run "terraform validate").returncode = 0
        · by_cases hpl : (env.run "terraform plan").returncode = 0
          · by_cases ha : (env.run "terraform apply -auto-approve").returncode = 0
            · simp [fullRun, check_prerequisites_eq, hp, hc, hi, hv, hpl, ha,
                generate_ssh_key_of_exists env c hkey,
                bind_eq_of_ok _ _ _ (copy_ssh_keys_ok env c),
                bind_eq_of_ok _ _ _ (test_ssh_connections_eq env c),
                bind_eq_of_ok _ _ _ (setup_sudoers_ok env c),
                bind_eq_of_ok _ _ _ (prepare_nodes_ok env c),
                bind_eq_of_ok _ _ _ (configure_firewall_ok env c),
                terraform_init_eq, terraform_validate_eq, terraform_plan_eq,
                terraform_apply_eq, verify_cluster_eq, defaultRunOk, exitWith]
            · simp [fullRun, check_prerequisites_eq, hp, hc, hi, hv, hpl, ha,
                generate_ssh_key_of_exists env c hkey,
                bind_eq_of_ok _ _ _ (copy_ssh_keys_ok env c),
                bind_eq_of_ok _ _ _ (test_ssh_connections_eq env c),
                bind_eq_of_ok _ _ _ (setup_sudoers_ok env c),
                bind_eq_of_ok _ _ _ (prepare_nodes_ok env c),
                bind_eq_of_ok _ _ _ (configure_firewall_ok env c),
                terraform_init_eq, terraform_validate_eq, terraform_plan_eq,
                terraform_apply_eq, verify_cluster_eq, defaultRunOk, exitWith]
          · simp [fullRun, check_prerequisites_eq, hp, hc, hi, hv, hpl,
              generate_ssh_key_of_exists env c hkey,
              bind_eq_of_ok _ _ _ (copy_ssh_keys_ok env c),
              bind_eq_of_ok _ _ _ (test_ssh_connections_eq env c),
              bind_eq_of_ok _ _ _ (setup_sudoers_ok env c),
              bind_eq_of_ok _ _ _ (prepare_nodes_ok env c),
              bind_eq_of_ok _ _ _ (configure_firewall_ok env c),
              terraform_init_eq, terraform_validate_eq, terraform_plan_eq,
              terraform_apply_eq, verify_cluster_eq, defaultRunOk, exitWith]
        · simp [fullRun, check_prerequisites_eq, hp, hc, hi, hv,
            generate_ssh_key_of_exists env c hkey,
            bind_eq_of_ok _ _ _ (copy_ssh_keys_ok env c),
            bind_eq_of_ok _ _ _ (test_ssh_connections_eq env c),
            bind_eq_of_ok _ _ _ (setup_sudoers_ok env c),
            bind_eq_of_ok _ _ _ (prepare_nodes_ok env c),
            bind_eq_of_ok _ _ _ (configure_firewall_ok env c),
            terraform_init_eq, terraform_validate_eq, terraform_plan_eq,
            terraform_apply_eq, verify_cluster_eq, defaultRunOk, exitWith]
      · simp [fullRun, check_prerequisites_eq, hp, hc, hi,
          generate_ssh_key_of_exists env c hkey,
          bind_eq_of_ok _ _ _ (copy_ssh_keys_ok env c),
          bind_eq_of_ok _ _ _ (test_ssh_connections_eq env c),
          bind_eq_of_ok _ _ _ (setup_sudoers_ok env c),
          bind_eq_of_ok _ _ _ (prepare_nodes_ok env c),
          bind_eq_of_ok _ _ _ (configure_firewall_ok env c),
          terraform_init_eq, terraform_validate_eq, terraform_plan_eq,
          terraform_apply_eq, verify_cluster_eq, defaultRunOk, exitWith]
    · simp [fullRun, check_prerequisites_eq, hp, hc,
        generate_ssh_key_of_exists env c hkey,
        bind_eq_of_ok _ _ _ (copy_ssh_keys_ok env c),
        bind_eq_of_ok _ _ _ (test_ssh_connections_eq env c),
        defaultRunOk, exitWith]
  · simp [fullRun, check_prerequisites_eq, hp, defaultRunOk, exitWith]

theorem fullRun_default_trace (env : Env) (c : ClusterSetup)
    (hp : prereqBool env = true) (hc : connAll env c = true)
    (hi : (env.run "terraform init").returncode = 0)
    (hv : (env.run "terraform validate").returncode = 0)
    (hpl : (env.run "terraform plan").returncode = 0)
    (ha : (env.run "terraform apply -auto-approve").returncode = 0) :
    (fullRun env c (Args.mk false false false false)).trace =
      (check_prerequisites env).trace ++ (generate_ssh_key env c).trace ++
      (copy_ssh_keys env c).trace ++ (test_ssh_connections env c).trace ++
      (setup_sudoers env c).trace ++ (prepare_nodes env c).trace ++
      (configure_firewall env c).trace ++ (terraform_init env).trace ++
      (terraform_validate env).trace ++ (terraform_plan env).trace ++
      (terraform_apply env).trace ++ (verify_cluster env).trace := by
  have hkey : env.sshKeyExists = true := by
    have h := hp
    simp only [prereqBool, Bool.and_eq_true] at h
    exact h.2
  simp [fullRun, check_prerequisites_eq, hp, hc, hi, hv, hpl, ha,
    generate_ssh_key_of_exists env c hkey,
    bind_eq_of_ok _ _ _ (copy_ssh_keys_ok env c),
    bind_eq_of_ok _ _ _ (test_ssh_connections_eq env c),
    bind_eq_of_ok _ _ _ (setup_sudoers_ok env c),
    bind_eq_of_ok _ _ _ (prepare_nodes_ok env c),
    bind_eq_of_ok _ _ _ (configure_firewall_ok env c),
    terraform_init_eq, terraform_validate_eq, terraform_plan_eq,
    terraform_apply_eq, verify_cluster_eq]

/-- C6 witness: even with every kubectl query failing, `--verify-only`
performs only the verification stage and exits 0. -/
theorem main_verify_only_witness :
    main envAllFail defaultConfig (Args.mk false false false true) =
      M.mk [Event.setEnvKubeconfig, Event.sleep 30, Event.cmd "kubectl get nodes",
        Event.cmd "kubectl get pods -A", Event.cmd "kubectl cluster-info"]
        (Except.ok ()) ∧
    exitCode (main envAllFail defaultConfig (Args.mk false false false true)) = 0 :=
  main_verify_only envAllFail defaultConfig (Args.mk false false false true) rfl rfl

/-- C1: a default invocation (all four flags off) exits 0 exactly when the
prerequisite check, the connectivity check and all four terraform
invocations (init, validate, plan, apply) succeed; and in that case its
trace is the concatenation, in the fixed order, of the ten stages:
prerequisite check, key generation, key distribution, connectivity
verification, sudoers setup, node preparation, firewall configuration,
the four terraform calls, and cluster verification. -/
theorem main_default_spec (env : Env) (c : ClusterSetup) :
    (exitCode (main env c (Args.mk false false false false)) = 0 ↔
      ((check_prerequisites env).result = Except.ok true ∧
       (test_ssh_connections env c).result = Except.ok true ∧
       (env.run "terraform init").returncode = 0 ∧
       (env.run "terraform validate").returncode = 0 ∧
       (env.run "terraform plan").returncode = 0 ∧
       (env.run "terraform apply -auto-approve").returncode = 0)) ∧
    (((check_prerequisites env).result = Except.ok true ∧
      (test_ssh_connections env c).result = Except.ok true ∧
      (env.run "terraform init").returncode = 0 ∧
      (env.run "terraform validate").returncode = 0 ∧
      (env.run "terraform plan").returncode = 0 ∧
      (env.run "terraform apply -auto-approve").returncode = 0) →
      (main env c (Args.mk false false false false)).trace =
        (check_prerequisites env).trace ++ (generate_ssh_key env c).trace ++
        (copy_ssh_keys env c).trace ++ (test_ssh_connections env c).trace ++
        (setup_sudoers env c).trace ++ (prepare_nodes env c).trace ++
        (configure_firewall env c).trace ++ (terraform_init env).trace ++
        (terraform_validate env).trace ++ (terraform_plan env).trace ++
        (terraform_apply env).trace ++ (verify_cluster env).trace) := by
  have hm : main env c (Args.mk false false false false) =
      fullRun env c (Args.mk false false false false) := rfl
  have hres := fullRun_default_result env c
  have hiff : defaultRunOk env c = true ↔
      ((check_prerequisites env).result = Except.ok true ∧
       (test_ssh_connections env c).result = Except.ok true ∧
       (env.run "terraform init").returncode = 0 ∧
       (env.run "terraform validate").returncode = 0 ∧
       (env.run "terraform plan").returncode = 0 ∧
       (env.run "terraform apply -auto-approve").returncode = 0) := by
    simp only [defaultRunOk, Bool.and_eq_true, beq_iff_eq]
    constructor
    · rintro ⟨h1, h2, h3, h4, h5, h6⟩
      refine ⟨?_, ?_, h3, h4, h5, h6⟩
      · rw [check_prerequisites_eq]
        simp [h1]
      · rw [test_ssh_connections_eq, h2]
    · rintro ⟨h1, h2, h3, h4, h5, h6⟩
      refine ⟨?_, ?_, h3, h4, h5, h6⟩
      · rw [check_prerequisites_eq] at h1
        simpa using h1
      · rw [test_ssh_connections_eq] at h2
        simpa using h2
  constructor
  · rw [hm]
    constructor
    · intro h0
      apply hiff.mp
      by_cases hok : defaultRunOk env c = true
      · exact hok
      · exfalso
        have herr : (fullRun env c (Args.mk false false false false)).result =
            Except.error 1 := by rw [hres, if_neg hok]
        simp [exitCode, herr] at h0
    · intro hbig
      have hok := hiff.mpr hbig
      have hdone : (fullRun env c (Args.mk false false false false)).result =
          Except.ok () := by rw [hres, if_pos hok]
      simp [exitCode, hdone]
  · intro hbig
    have hok := hiff.mpr hbig
    have hcomps := hok
    simp only [defaultRunOk, Bool.and_eq_true, beq_iff_eq] at hcomps
    obtain ⟨h1, h2, h3, h4, h5, h6⟩ := hcomps
    rw [hm]
    exact fullRun_default_trace env c h1 h2 h3 h4 h5 h6

end SetupCluster
